import Mathlib

/-!
Shallow embedding of the school-management system (Django app `lms`).

The relational tables of `lms/models.py` are modelled as lists of records held
in a `Db` value, in insertion order (ascending primary key), which is the order
a query without an `order_by` clause returns rows in.  Foreign keys are `Nat`
primary keys; nullable foreign keys are `Option Nat`.  The role-scoped
`get_queryset` / `perform_create` methods of `lms/views.py` become functions
from a `Db` and the calling `User` to the result list, or to the updated `Db`.
Fields of the source models that no modelled code path reads (file paths,
free-text descriptions, timestamps other than the ones queried) are omitted.
-/

namespace Lms

/-- Roles of `User.ROLE_CHOICES` in `lms/models.py`. -/
inductive Role where
  | admin
  | principal
  | teacher
  | student
  | parent
deriving DecidableEq

/-- Custom user model (`lms/models.py`, `class User`); only the primary key and
the `role` column are read by the modelled views. -/
structure User where
  id : Nat
  role : Role
deriving DecidableEq

/-- Status choices of `Attendance.status` in `lms/models.py`. -/
inductive AttStatus where
  | present
  | absent
  | late
deriving DecidableEq

/-- Student profile (`lms/models.py`, `class Student`).  The source field
`section` is spelled `sect` here because `section` is reserved in Lean.
`parent` is a nullable foreign key (`on_delete=SET_NULL`). -/
structure Student where
  id : Nat
  user : Nat
  grade : String
  sect : String
  parent : Option Nat
deriving DecidableEq

/-- Teacher profile (`lms/models.py`, `class Teacher`); `subjects` is the
many-to-many field to `Subject`, held as the list of subject primary keys. -/
structure Teacher where
  id : Nat
  user : Nat
  subjects : List Nat
deriving DecidableEq

/-- Parent profile (`lms/models.py`, `class Parent`). -/
structure Parent where
  id : Nat
  user : Nat
deriving DecidableEq

/-- Academic year (`lms/models.py`, `class AcademicYear`). -/
structure AcademicYear where
  id : Nat
  is_active : Bool
deriving DecidableEq

/-- School class (`lms/models.py`, `class Class`): a grade-and-section pair
within an academic year. -/
structure Class where
  id : Nat
  grade : String
  sect : String
  academic_year : Nat
deriving DecidableEq

/-- Subject (`lms/models.py`, `class Subject`). -/
structure Subject where
  id : Nat
  grade : String
deriving DecidableEq

/-- Timetable slot (`lms/models.py`, `class Timetable`): `class_obj` and
`subject` are foreign keys, `period` is the 1..8 period number. -/
structure Timetable where
  id : Nat
  class_obj : Nat
  day : String
  period : Nat
  subject : Nat
deriving DecidableEq

/-- Learning content (`lms/models.py`, `class Content`): `uploaded_by` is the
foreign key to `Teacher`, `grade` the grade the content is scoped to. -/
structure Content where
  id : Nat
  subject : Nat
  grade : String
  uploaded_by : Nat
deriving DecidableEq

/-- Assessment (`lms/models.py`, `class Assessment`); `scheduled_date` is the
timestamp compared against `timezone.now()` by the dashboard queries. -/
structure Assessment where
  id : Nat
  subject : Nat
  class_obj : Nat
  teacher : Nat
  scheduled_date : Nat
  total_marks : Nat
deriving DecidableEq

/-- Submission (`lms/models.py`, `class Submission`): foreign keys to
`Assessment` and `Student`; the table carries
`unique_together = [assessment, student]`. -/
structure Submission where
  id : Nat
  assessment : Nat
  student : Nat
  marks_obtained : Option Nat
deriving DecidableEq

/-- Attendance row (`lms/models.py`, `class Attendance`): one status per
student per date, marked by a teacher for a class. -/
structure Attendance where
  id : Nat
  student : Nat
  date : Nat
  status : AttStatus
  marked_by : Nat
  class_obj : Nat
deriving DecidableEq

/-- Fee payment (`lms/models.py`, `class FeePayment`). -/
structure FeePayment where
  id : Nat
  student : Nat
  fee_structure : Nat
  is_paid : Bool
deriving DecidableEq

/-- Audience choices of `Announcement.target_audience` in `lms/models.py`. -/
inductive Audience where
  | all
  | teachers
  | students
  | parents
deriving DecidableEq

/-- Announcement (`lms/models.py`, `class Announcement`); `created_date` is the
`auto_now_add` creation timestamp, so it increases with the primary key. -/
structure Announcement where
  id : Nat
  created_by : Nat
  created_date : Nat
  target_audience : Audience
  is_active : Bool
deriving DecidableEq

/-- Database state: one list per modelled table, in insertion order. -/
structure Db where
  users : List User
  students : List Student
  teachers : List Teacher
  parents : List Parent
  academic_years : List AcademicYear
  classes : List Class
  subjects : List Subject
  timetables : List Timetable
  contents : List Content
  assessments : List Assessment
  submissions : List Submission
  attendances : List Attendance
  fee_payments : List FeePayment
  announcements : List Announcement
deriving DecidableEq

/-- Database with every table empty; example states override single tables. -/
def Db.empty : Db :=
  ⟨[], [], [], [], [], [], [], [], [], [], [], [], [], []⟩

/-- ORM lookup `Student.objects.get(user=user)`: the one-to-one student profile
of a user, `none` when `Student.DoesNotExist` would be raised. -/
def getStudent (db : Db) (user : User) : Option Student :=
  db.students.find? (fun s => s.user == user.id)

/-- ORM lookup `Teacher.objects.get(user=user)`. -/
def getTeacher (db : Db) (user : User) : Option Teacher :=
  db.teachers.find? (fun t => t.user == user.id)

/-- ORM lookup `Parent.objects.get(user=user)`. -/
def getParent (db : Db) (user : User) : Option Parent :=
  db.parents.find? (fun p => p.user == user.id)

/-- Foreign-key dereference of a `Class` primary key. -/
def findClass (db : Db) (cid : Nat) : Option Class :=
  db.classes.find? (fun c => c.id == cid)

/-- Foreign-key dereference of a `Student` primary key. -/
def findStudent (db : Db) (sid : Nat) : Option Student :=
  db.students.find? (fun s => s.id == sid)

/-- Foreign-key dereference of an `Assessment` primary key. -/
def findAssessment (db : Db) (aid : Nat) : Option Assessment :=
  db.assessments.find? (fun a => a.id == aid)

/-- Join condition `class_obj__grade=student.grade, class_obj__section=student.section`
used by the timetable and assessment queries of `lms/views.py`. -/
def classMatches (db : Db) (student : Student) (cid : Nat) : Bool :=
  match findClass db cid with
  | some c => c.grade == student.grade && c.sect == student.sect
  | none => false

/-- Rounding of a rational to the nearest integer with ties going to the even
integer, the rule Python `round` applies to an exactly represented value. -/
def roundHalfEven (x : ℚ) : ℤ :=
  let n : ℤ := Int.floor x
  let frac : ℚ := x - (n : ℚ)
  if frac < 1 / 2 then n
  else if 1 / 2 < frac then n + 1
  else if n % 2 = 0 then n else n + 1

/-- Python `round(x, 2)`: round to two decimal places. -/
def round2 (x : ℚ) : ℚ := (roundHalfEven (x * 100) : ℚ) / 100

/-- Helper `calculate_attendance_percentage` of `lms/views.py`: 0 when the
student has no attendance rows, otherwise the share of rows with status
`present`, times 100, rounded to two decimals.  The Python helper receives the
student object and queries the global tables; here the database and the
student primary key are explicit arguments. -/
def calculate_attendance_percentage (db : Db) (student : Nat) : ℚ :=
  let total_days := (db.attendances.filter (fun a => a.student == student)).length
  if total_days = 0 then 0
  else
    let present_days :=
      (db.attendances.filter
        (fun a => a.student == student && a.status == AttStatus.present)).length
    round2 (((present_days : ℚ) / (total_days : ℚ)) * 100)

/-- Role scoping of `StudentViewSet.get_queryset` (`lms/views.py`): a
student-role caller sees only the student row of their own user; a parent-role
caller sees their children, or nothing when the `Parent` profile is missing;
every other role gets the unrestricted default queryset. -/
def StudentViewSet.get_queryset (db : Db) (user : User) : List Student :=
  match user.role with
  | Role.student => db.students.filter (fun s => s.user == user.id)
  | Role.parent =>
    match getParent db user with
    | some parent => db.students.filter (fun s => s.parent == some parent.id)
    | none => []
  | _ => db.students

/-- Role scoping of `TimetableViewSet.get_queryset` (`lms/views.py`): a
student-role caller sees the slots of classes matching their own grade and
section; a teacher-role caller sees the slots of their assigned subjects; a
missing profile yields the empty queryset (`objects.none()`). -/
def TimetableViewSet.get_queryset (db : Db) (user : User) : List Timetable :=
  match user.role with
  | Role.student =>
    match getStudent db user with
    | some student => db.timetables.filter (fun t => classMatches db student t.class_obj)
    | none => []
  | Role.teacher =>
    match getTeacher db user with
    | some teacher => db.timetables.filter (fun t => teacher.subjects.contains t.subject)
    | none => []
  | _ => db.timetables

/-- Role scoping of `ContentViewSet.get_queryset` (`lms/views.py`): only the
student role is scoped (by grade); every other role, the teacher role
included, falls through to the unrestricted default queryset. -/
def ContentViewSet.get_queryset (db : Db) (user : User) : List Content :=
  match user.role with
  | Role.student =>
    match getStudent db user with
    | some student => db.contents.filter (fun c => c.grade == student.grade)
    | none => []
  | _ => db.contents

/-- Write path of `ContentViewSet.perform_create` (`lms/views.py`): for a
teacher-role caller the row is saved with `uploaded_by` force-set to the
caller's teacher profile, overriding any value in the payload.  When
`Teacher.objects.get` raises `DoesNotExist` the request aborts before any
save, and for every other role `perform_create` falls through without calling
`save`; both leave the database unchanged. -/
def ContentViewSet.perform_create (db : Db) (user : User) (payload : Content) : Db :=
  match user.role with
  | Role.teacher =>
    match getTeacher db user with
    | some teacher =>
        { db with contents := db.contents ++ [{ payload with uploaded_by := teacher.id }] }
    | none => db
  | _ => db

/-- REST create action on the content endpoint: the framework mixin validates
the payload, runs `perform_create`, and replies 201 Created with the
serializer data whether or not `perform_create` stored anything. -/
def ContentViewSet.createAction (db : Db) (user : User) (payload : Content) : Nat × Db :=
  (201, ContentViewSet.perform_create db user payload)

/-- Role scoping of `AssessmentViewSet.get_queryset` (`lms/views.py`). -/
def AssessmentViewSet.get_queryset (db : Db) (user : User) : List Assessment :=
  match user.role with
  | Role.student =>
    match getStudent db user with
    | some student => db.assessments.filter (fun a => classMatches db student a.class_obj)
    | none => []
  | Role.teacher =>
    match getTeacher db user with
    | some teacher => db.assessments.filter (fun a => a.teacher == teacher.id)
    | none => []
  | _ => db.assessments

/-- Role scoping of `SubmissionViewSet.get_queryset` (`lms/views.py`): a
student sees their own submissions, a teacher the submissions to assessments
they own (`assessment__teacher=teacher`). -/
def SubmissionViewSet.get_queryset (db : Db) (user : User) : List Submission :=
  match user.role with
  | Role.student =>
    match getStudent db user with
    | some student => db.submissions.filter (fun x => x.student == student.id)
    | none => []
  | Role.teacher =>
    match getTeacher db user with
    | some teacher =>
        db.submissions.filter (fun x =>
          match findAssessment db x.assessment with
          | some a => a.teacher == teacher.id
          | none => false)
    | none => []
  | _ => db.submissions

/-- Database insert into the `Submission` table, enforcing
`unique_together = [assessment, student]` of `lms/models.py`: the insert
fails (an integrity error) and leaves the table unchanged when a row with the
same pair is already stored. -/
def Submission.insert (table : List Submission) (row : Submission) :
    Option (List Submission) :=
  if table.any (fun x => x.assessment == row.assessment && x.student == row.student) then
    none
  else
    some (table ++ [row])

/-- Write path of `SubmissionViewSet.perform_create` (`lms/views.py`): for a
student-role caller the row is saved with `student` force-set to the caller's
profile, subject to the unique (assessment, student) constraint; any other
role falls through without saving. -/
def SubmissionViewSet.perform_create (db : Db) (user : User) (payload : Submission) : Db :=
  match user.role with
  | Role.student =>
    match getStudent db user with
    | some student =>
        match Submission.insert db.submissions { payload with student := student.id } with
        | some table => { db with submissions := table }
        | none => db
    | none => db
  | _ => db

/-- REST create action on the submission endpoint (framework mixin, as for
content). -/
def SubmissionViewSet.createAction (db : Db) (user : User) (payload : Submission) : Nat × Db :=
  (201, SubmissionViewSet.perform_create db user payload)

/-- Role scoping of `AttendanceViewSet.get_queryset` (`lms/views.py`). -/
def AttendanceViewSet.get_queryset (db : Db) (user : User) : List Attendance :=
  match user.role with
  | Role.student =>
    match getStudent db user with
    | some student => db.attendances.filter (fun a => a.student == student.id)
    | none => []
  | Role.teacher =>
    match getTeacher db user with
    | some teacher => db.attendances.filter (fun a => a.marked_by == teacher.id)
    | none => []
  | _ => db.attendances

/-- Write path of `AttendanceViewSet.perform_create` (`lms/views.py`): for a
teacher-role caller the row is saved with `marked_by` force-set to the
caller's profile; any other role falls through without saving. -/
def AttendanceViewSet.perform_create (db : Db) (user : User) (payload : Attendance) : Db :=
  match user.role with
  | Role.teacher =>
    match getTeacher db user with
    | some teacher =>
        { db with attendances := db.attendances ++ [{ payload with marked_by := teacher.id }] }
    | none => db
  | _ => db

/-- REST create action on the attendance endpoint (framework mixin, as for
content). -/
def AttendanceViewSet.createAction (db : Db) (user : User) (payload : Attendance) : Nat × Db :=
  (201, AttendanceViewSet.perform_create db user payload)

/-- Role scoping of `FeePaymentViewSet.get_queryset` (`lms/views.py`): a
student sees their own payments, a parent the payments of their children
(`student__parent=parent`). -/
def FeePaymentViewSet.get_queryset (db : Db) (user : User) : List FeePayment :=
  match user.role with
  | Role.student =>
    match getStudent db user with
    | some student => db.fee_payments.filter (fun p => p.student == student.id)
    | none => []
  | Role.parent =>
    match getParent db user with
    | some parent =>
        db.fee_payments.filter (fun p =>
          match findStudent db p.student with
          | some s => s.parent == some parent.id
          | none => false)
    | none => []
  | _ => db.fee_payments

/-- Payload of the admin dashboard response (`admin_dashboard` in
`lms/views.py`). -/
structure AdminDashboard where
  total_students : Nat
  total_teachers : Nat
  total_parents : Nat
  total_classes : Nat
  total_subjects : Nat
  active_academic_year : Option AcademicYear
  recent_announcements : List Announcement
deriving DecidableEq

/-- Admin dashboard view (`lms/views.py`): counts, the first active academic
year, and the first five active announcements.  The announcement queryset
`Announcement.objects.filter(is_active=True)[:5]` carries no `order_by` and
the model declares no default ordering, so the slice is taken in table
(insertion) order. -/
def admin_dashboard (db : Db) : AdminDashboard where
  total_students := db.students.length
  total_teachers := db.teachers.length
  total_parents := db.parents.length
  total_classes := db.classes.length
  total_subjects := db.subjects.length
  active_academic_year := db.academic_years.find? (fun y => y.is_active)
  recent_announcements := (db.announcements.filter (fun a => a.is_active)).take 5

/-- Outcome of a dashboard endpoint: a 200 payload or an error status with its
message. -/
inductive ApiResponse (α : Type) where
  | ok (data : α)
  | error (status : Nat) (msg : String)
deriving DecidableEq

/-- Payload of the teacher dashboard response (`teacher_dashboard` in
`lms/views.py`). -/
structure TeacherDashboard where
  teacher_info : Teacher
  assigned_subjects : List Subject
  upcoming_assessments : List Assessment
  recent_content : List Content
deriving DecidableEq

/-- Teacher dashboard view (`lms/views.py`): on a missing `Teacher` profile it
returns 404 with an error message; `now` stands for `timezone.now()`. -/
def teacher_dashboard (db : Db) (user : User) (now : Nat) : ApiResponse TeacherDashboard :=
  match getTeacher db user with
  | some teacher =>
      ApiResponse.ok
        { teacher_info := teacher
          assigned_subjects := db.subjects.filter (fun s => teacher.subjects.contains s.id)
          upcoming_assessments :=
            (db.assessments.filter
              (fun a => a.teacher == teacher.id && decide (now ≤ a.scheduled_date))).take 5
          recent_content :=
            (db.contents.filter (fun c => c.uploaded_by == teacher.id)).take 5 }
  | none => ApiResponse.error 404 "Teacher profile not found"

/-- Payload of the student dashboard response (`student_dashboard` in
`lms/views.py`). -/
structure StudentDashboard where
  student_info : Student
  timetable : List Timetable
  upcoming_assessments : List Assessment
  recent_content : List Content
  attendance_percentage : ℚ
deriving DecidableEq

/-- Student dashboard view (`lms/views.py`): on a missing `Student` profile it
returns 404 with an error message. -/
def student_dashboard (db : Db) (user : User) (now : Nat) : ApiResponse StudentDashboard :=
  match getStudent db user with
  | some student =>
      ApiResponse.ok
        { student_info := student
          timetable := db.timetables.filter (fun t => classMatches db student t.class_obj)
          upcoming_assessments :=
            (db.assessments.filter
              (fun a => classMatches db student a.class_obj && decide (now ≤ a.scheduled_date))).take 5
          recent_content := (db.contents.filter (fun c => c.grade == student.grade)).take 5
          attendance_percentage := calculate_attendance_percentage db student.id }
  | none => ApiResponse.error 404 "Student profile not found"

/-- Attendance entry of a child in the parent dashboard. -/
structure ChildAttendance where
  student : Student
  attendance_percentage : ℚ
deriving DecidableEq

/-- Payload of the parent dashboard response (`parent_dashboard` in
`lms/views.py`). -/
structure ParentDashboard where
  parent_info : Parent
  children : List Student
  children_attendance : List ChildAttendance
  unpaid_fees : List FeePayment
deriving DecidableEq

/-- Parent dashboard view (`lms/views.py`): on a missing `Parent` profile it
returns 404 with an error message. -/
def parent_dashboard (db : Db) (user : User) : ApiResponse ParentDashboard :=
  match getParent db user with
  | some parent =>
      let children := db.students.filter (fun s => s.parent == some parent.id)
      ApiResponse.ok
        { parent_info := parent
          children := children
          children_attendance :=
            children.map (fun child =>
              { student := child
                attendance_percentage := calculate_attendance_percentage db child.id })
          unpaid_fees :=
            db.fee_payments.filter (fun p =>
              children.any (fun c => c.id == p.student) && !p.is_paid) }
  | none => ApiResponse.error 404 "Parent profile not found"

/-! Concrete example states used to instantiate the theorems. -/

/-- Student with ten attendance rows, eight of status `present`. -/
def dbAttendanceExample : Db :=
  { Db.empty with
    students := [⟨1, 10, "Grade 1", "A", none⟩],
    attendances :=
      [⟨1, 1, 1, AttStatus.present, 1, 1⟩, ⟨2, 1, 2, AttStatus.present, 1, 1⟩,
       ⟨3, 1, 3, AttStatus.present, 1, 1⟩, ⟨4, 1, 4, AttStatus.present, 1, 1⟩,
       ⟨5, 1, 5, AttStatus.present, 1, 1⟩, ⟨6, 1, 6, AttStatus.present, 1, 1⟩,
       ⟨7, 1, 7, AttStatus.present, 1, 1⟩, ⟨8, 1, 8, AttStatus.present, 1, 1⟩,
       ⟨9, 1, 9, AttStatus.absent, 1, 1⟩, ⟨10, 1, 10, AttStatus.late, 1, 1⟩] }

/-- First submission for the pair (assessment 5, student 7). -/
def subRow1 : Submission := ⟨1, 5, 7, none⟩

/-- Second submission for the same pair (assessment 5, student 7). -/
def subRow2 : Submission := ⟨2, 5, 7, some 3⟩

/-- Two classes with distinct grade and section, each with a timetable slot,
and one student enrolled in the first. -/
def dbTimetableExample : Db :=
  { Db.empty with
    students := [⟨1, 10, "Grade 1", "A", none⟩],
    classes := [⟨1, "Grade 1", "A", 1⟩, ⟨2, "Grade 2", "B", 1⟩],
    timetables := [⟨1, 1, "monday", 1, 1⟩, ⟨2, 2, "monday", 1, 1⟩] }

/-- Student-role caller owning the student row of `dbTimetableExample`. -/
def studentUserExample : User := ⟨10, Role.student⟩

/-- Student row of `dbTimetableExample`. -/
def studentRowExample : Student := ⟨1, 10, "Grade 1", "A", none⟩

/-- Two parents with one child each; each child has one fee payment. -/
def dbFeeExample : Db :=
  { Db.empty with
    parents := [⟨1, 20⟩, ⟨2, 21⟩],
    students := [⟨1, 10, "Grade 1", "A", some 1⟩, ⟨2, 11, "Grade 1", "A", some 2⟩],
    fee_payments := [⟨1, 1, 1, false⟩, ⟨2, 2, 1, true⟩] }

/-- Parent-role caller owning the first parent row of `dbFeeExample`. -/
def parentUserExample : User := ⟨20, Role.parent⟩

/-- First parent row of `dbFeeExample`. -/
def parentRowExample : Parent := ⟨1, 20⟩

/-- Two teachers; each has uploaded one content row. -/
def dbContentExample : Db :=
  { Db.empty with
    teachers := [⟨1, 30, []⟩, ⟨2, 31, []⟩],
    contents := [⟨1, 1, "Grade 1", 1⟩, ⟨2, 1, "Grade 1", 2⟩] }

/-- Teacher-role caller owning the first teacher row of `dbContentExample`. -/
def teacherUserExample : User := ⟨30, Role.teacher⟩

/-- First teacher row of `dbContentExample`. -/
def teacherRowExample : Teacher := ⟨1, 30, []⟩

/-- Content payload whose `uploaded_by` field claims teacher 99. -/
def contentPayloadExample : Content := ⟨9, 1, "Grade 1", 99⟩

/-- Attendance payload whose `marked_by` field claims teacher 99. -/
def attendancePayloadExample : Attendance := ⟨9, 1, 3, AttStatus.present, 99, 1⟩

/-- Submission payload whose `student` field claims student 99. -/
def submissionPayloadExample : Submission := ⟨9, 1, 99, none⟩

/-- State whose every table is populated, but whose profile rows belong to
users 97, 98 and 99 only, so callers 50, 51 and 52 have no profile. -/
def dbNoProfiles : Db :=
  { Db.empty with
    students := [⟨1, 99, "Grade 1", "A", none⟩],
    teachers := [⟨1, 98, []⟩],
    parents := [⟨1, 97⟩],
    classes := [⟨1, "Grade 1", "A", 1⟩],
    timetables := [⟨1, 1, "monday", 1, 1⟩],
    contents := [⟨1, 1, "Grade 1", 1⟩],
    assessments := [⟨1, 1, 1, 1, 5, 100⟩],
    submissions := [⟨1, 1, 1, none⟩],
    attendances := [⟨1, 1, 1, AttStatus.present, 1, 1⟩],
    fee_payments := [⟨1, 1, 1, false⟩] }

/-- Student-role caller without a student row in `dbNoProfiles`. -/
def noProfileStudentUser : User := ⟨50, Role.student⟩

/-- Teacher-role caller without a teacher row in `dbNoProfiles`. -/
def noProfileTeacherUser : User := ⟨51, Role.teacher⟩

/-- Parent-role caller without a parent row in `dbNoProfiles`. -/
def noProfileParentUser : User := ⟨52, Role.parent⟩

/-- Admin-role caller, used on create endpoints scoped to other roles. -/
def adminUserExample : User := ⟨70, Role.admin⟩

/-- Six active announcements inserted in creation order: `created_date` equals
the primary key, so announcement 6 is the most recent. -/
def announcementExample (i : Nat) : Announcement := ⟨i, 1, i, Audience.all, true⟩

/-- State holding the six announcements of `announcementExample`. -/
def dbAnnouncementExample : Db :=
  { Db.empty with
    announcements :=
      [announcementExample 1, announcementExample 2, announcementExample 3,
       announcementExample 4, announcementExample 5, announcementExample 6] }

/-! Theorems settling the claims. -/

/-- Helper: a list on which `find?` fails filters to the empty list. -/
theorem filter_eq_nil_of_find?_eq_none {α : Type} (p : α → Bool) (l : List α)
    (h : l.find? p = none) : l.filter p = [] := by
  rw [List.filter_eq_nil_iff]
  intro a ha
  have hpa := List.find?_eq_none.mp h a ha
  simpa using hpa

/-- C1: `calculate_attendance_percentage` is 0 for a student with no
attendance rows, otherwise the number of rows with status `present` divided by
the total number of the student's rows, times 100, rounded to two decimal
places; a student with ten rows of which eight are `present` gets 80.0. -/
theorem c1_attendance_percentage :
    (∀ (db : Db) (student : Nat),
      calculate_attendance_percentage db student =
        if db.attendances.countP (fun a => a.student == student) = 0 then 0
        else
          round2
            ((((db.attendances.countP
                  (fun a => a.student == student && a.status == AttStatus.present)) : ℚ) /
                ((db.attendances.countP (fun a => a.student == student)) : ℚ)) * 100)) ∧
    calculate_attendance_percentage dbAttendanceExample 1 = 80 := by
  constructor
  · intro db student
    simp [calculate_attendance_percentage, List.countP_eq_length_filter]
  · simp [calculate_attendance_percentage, dbAttendanceExample, Db.empty]
    norm_num [round2, roundHalfEven]

/-- C2: at most one submission can exist per (assessment, student) pair: once
an insert for the pair has succeeded, a second insert for the same pair fails
and leaves the stored table unchanged. -/
theorem c2_submission_unique_pair (table table2 : List Submission) (row row2 : Submission)
    (hfirst : Submission.insert table row = some table2)
    (ha : row2.assessment = row.assessment) (hs : row2.student = row.student) :
    Submission.insert table2 row2 = none ∧
    (Submission.insert table2 row2).getD table2 = table2 := by
  have h2 : table2 = table ++ [row] := by
    unfold Submission.insert at hfirst
    split at hfirst
    · simp at hfirst
    · exact (Option.some.inj hfirst).symm
  subst h2
  have hcond : ((table ++ [row]).any
      (fun x => x.assessment == row2.assessment && x.student == row2.student)) = true := by
    simp [ha, hs]
  constructor
  · simp [Submission.insert, hcond]
  · simp [Submission.insert, hcond]

/-- Witness for C2 at the concrete pair (assessment 5, student 7). -/
theorem c2_submission_unique_pair_witness :
    Submission.insert [subRow1] subRow2 = none ∧
    (Submission.insert [subRow1] subRow2).getD [subRow1] = [subRow1] :=
  c2_submission_unique_pair [] [subRow1] subRow1 subRow2 (by decide) rfl rfl

/-- C3: a student-role caller with a student profile listing the timetable
receives exactly the rows whose class matches their own grade and section, and
every returned row's class carries that grade and section. -/
theorem c3_student_timetable_scoping (db : Db) (user : User) (student : Student)
    (hrole : user.role = Role.student) (hprof : getStudent db user = some student) :
    TimetableViewSet.get_queryset db user =
      db.timetables.filter (fun t => classMatches db student t.class_obj) ∧
    ∀ t ∈ TimetableViewSet.get_queryset db user, ∃ c,
      findClass db t.class_obj = some c ∧ c.grade = student.grade ∧ c.sect = student.sect := by
  have hq : TimetableViewSet.get_queryset db user =
      db.timetables.filter (fun t => classMatches db student t.class_obj) := by
    simp [TimetableViewSet.get_queryset, hrole, hprof]
  refine ⟨hq, ?_⟩
  intro t ht
  rw [hq] at ht
  have hp : classMatches db student t.class_obj = true := (List.mem_filter.mp ht).2
  unfold classMatches at hp
  cases hfc : findClass db t.class_obj with
  | none => rw [hfc] at hp; cases hp
  | some c =>
      rw [hfc] at hp
      simp at hp
      exact ⟨c, rfl, hp.1, hp.2⟩

/-- Witness for C3: the student of `dbTimetableExample` only receives the slot
of their own class. -/
theorem c3_student_timetable_scoping_witness :
    TimetableViewSet.get_queryset dbTimetableExample studentUserExample =
      dbTimetableExample.timetables.filter
        (fun t => classMatches dbTimetableExample studentRowExample t.class_obj) ∧
    ∀ t ∈ TimetableViewSet.get_queryset dbTimetableExample studentUserExample, ∃ c,
      findClass dbTimetableExample t.class_obj = some c ∧
      c.grade = studentRowExample.grade ∧ c.sect = studentRowExample.sect :=
  c3_student_timetable_scoping dbTimetableExample studentUserExample studentRowExample rfl
    (by decide)

/-- C4: a parent-role caller with a parent profile listing fee payments
receives exactly the payments of students whose `parent` field is that
profile, and every returned payment belongs to such a student. -/
theorem c4_parent_feepayment_scoping (db : Db) (user : User) (parent : Parent)
    (hrole : user.role = Role.parent) (hprof : getParent db user = some parent) :
    FeePaymentViewSet.get_queryset db user =
      db.fee_payments.filter (fun p =>
        match findStudent db p.student with
        | some s => s.parent == some parent.id
        | none => false) ∧
    ∀ p ∈ FeePaymentViewSet.get_queryset db user, ∃ s,
      findStudent db p.student = some s ∧ s.parent = some parent.id := by
  have hq : FeePaymentViewSet.get_queryset db user =
      db.fee_payments.filter (fun p =>
        match findStudent db p.student with
        | some s => s.parent == some parent.id
        | none => false) := by
    simp [FeePaymentViewSet.get_queryset, hrole, hprof]
  refine ⟨hq, ?_⟩
  intro p hpmem
  rw [hq] at hpmem
  have hp := (List.mem_filter.mp hpmem).2
  cases hfs : findStudent db p.student with
  | none => rw [hfs] at hp; cases hp
  | some s =>
      rw [hfs] at hp
      simp at hp
      exact ⟨s, rfl, hp⟩

/-- Witness for C4: the first parent of `dbFeeExample` only receives the
payment of their own child. -/
theorem c4_parent_feepayment_scoping_witness :
    FeePaymentViewSet.get_queryset dbFeeExample parentUserExample =
      dbFeeExample.fee_payments.filter (fun p =>
        match findStudent dbFeeExample p.student with
        | some s => s.parent == some parentRowExample.id
        | none => false) ∧
    ∀ p ∈ FeePaymentViewSet.get_queryset dbFeeExample parentUserExample, ∃ s,
      findStudent dbFeeExample p.student = some s ∧ s.parent = some parentRowExample.id :=
  c4_parent_feepayment_scoping dbFeeExample parentUserExample parentRowExample rfl (by decide)

/-- C5: creating content as a teacher-role caller with a teacher profile
stores the payload with `uploaded_by` force-set to that profile, so every
stored content row either predates the call or carries the caller's profile
as uploader, whatever `uploaded_by` the payload supplied. -/
theorem c5_content_create_forces_owner (db : Db) (user : User) (teacher : Teacher)
    (payload : Content)
    (hrole : user.role = Role.teacher) (hprof : getTeacher db user = some teacher) :
    (ContentViewSet.perform_create db user payload).contents =
      db.contents ++ [{ payload with uploaded_by := teacher.id }] ∧
    ∀ c ∈ (ContentViewSet.perform_create db user payload).contents,
      c ∈ db.contents ∨ c.uploaded_by = teacher.id := by
  have h : ContentViewSet.perform_create db user payload =
      { db with contents := db.contents ++ [{ payload with uploaded_by := teacher.id }] } := by
    simp [ContentViewSet.perform_create, hrole, hprof]
  rw [h]
  refine ⟨rfl, ?_⟩
  intro c hc
  simp at hc
  rcases hc with h1 | h2
  · exact Or.inl h1
  · subst h2
    exact Or.inr rfl

/-- Witness for C5: a payload claiming teacher 99 as uploader is stored with
the caller's own profile 1 instead. -/
theorem c5_content_create_forces_owner_witness :
    (ContentViewSet.perform_create dbContentExample teacherUserExample
        contentPayloadExample).contents =
      dbContentExample.contents ++
        [{ contentPayloadExample with uploaded_by := teacherRowExample.id }] ∧
    ∀ c ∈ (ContentViewSet.perform_create dbContentExample teacherUserExample
        contentPayloadExample).contents,
      c ∈ dbContentExample.contents ∨ c.uploaded_by = teacherRowExample.id :=
  c5_content_create_forces_owner dbContentExample teacherUserExample teacherRowExample
    contentPayloadExample rfl (by decide)

/-- C6: a caller whose role names a missing profile gets the empty result from
every list operation the code scopes for that role — all seven for the
student role, timetable/assessment/submission/attendance for the teacher
role, student/fee-payment for the parent role — rather than an error. -/
theorem c6_missing_profile_empty_lists (db : Db) (us ut up : User)
    (hsRole : us.role = Role.student) (hsProf : getStudent db us = none)
    (htRole : ut.role = Role.teacher) (htProf : getTeacher db ut = none)
    (hpRole : up.role = Role.parent) (hpProf : getParent db up = none) :
    (StudentViewSet.get_queryset db us = [] ∧
     TimetableViewSet.get_queryset db us = [] ∧
     ContentViewSet.get_queryset db us = [] ∧
     AssessmentViewSet.get_queryset db us = [] ∧
     SubmissionViewSet.get_queryset db us = [] ∧
     AttendanceViewSet.get_queryset db us = [] ∧
     FeePaymentViewSet.get_queryset db us = []) ∧
    (TimetableViewSet.get_queryset db ut = [] ∧
     AssessmentViewSet.get_queryset db ut = [] ∧
     SubmissionViewSet.get_queryset db ut = [] ∧
     AttendanceViewSet.get_queryset db ut = []) ∧
    (StudentViewSet.get_queryset db up = [] ∧
     FeePaymentViewSet.get_queryset db up = []) := by
  have hsFilter : db.students.filter (fun s => s.user == us.id) = [] :=
    filter_eq_nil_of_find?_eq_none _ _ hsProf
  refine ⟨⟨?_, ?_, ?_, ?_, ?_, ?_, ?_⟩, ⟨?_, ?_, ?_, ?_⟩, ⟨?_, ?_⟩⟩ <;>
    simp [StudentViewSet.get_queryset, TimetableViewSet.get_queryset,
      ContentViewSet.get_queryset, AssessmentViewSet.get_queryset,
      SubmissionViewSet.get_queryset, AttendanceViewSet.get_queryset,
      FeePaymentViewSet.get_queryset, hsRole, hsProf, htRole, htProf, hpRole, hpProf, hsFilter]

/-- Witness for C6 on `dbNoProfiles`, whose tables are all populated while
callers 50, 51 and 52 lack their profiles. -/
theorem c6_missing_profile_empty_lists_witness :
    (StudentViewSet.get_queryset dbNoProfiles noProfileStudentUser = [] ∧
     TimetableViewSet.get_queryset dbNoProfiles noProfileStudentUser = [] ∧
     ContentViewSet.get_queryset dbNoProfiles noProfileStudentUser = [] ∧
     AssessmentViewSet.get_queryset dbNoProfiles noProfileStudentUser = [] ∧
     SubmissionViewSet.get_queryset dbNoProfiles noProfileStudentUser = [] ∧
     AttendanceViewSet.get_queryset dbNoProfiles noProfileStudentUser = [] ∧
     FeePaymentViewSet.get_queryset dbNoProfiles noProfileStudentUser = []) ∧
    (TimetableViewSet.get_queryset dbNoProfiles noProfileTeacherUser = [] ∧
     AssessmentViewSet.get_queryset dbNoProfiles noProfileTeacherUser = [] ∧
     SubmissionViewSet.get_queryset dbNoProfiles noProfileTeacherUser = [] ∧
     AttendanceViewSet.get_queryset dbNoProfiles noProfileTeacherUser = []) ∧
    (StudentViewSet.get_queryset dbNoProfiles noProfileParentUser = [] ∧
     FeePaymentViewSet.get_queryset dbNoProfiles noProfileParentUser = []) :=
  c6_missing_profile_empty_lists dbNoProfiles noProfileStudentUser noProfileTeacherUser
    noProfileParentUser rfl (by decide) rfl (by decide) rfl (by decide)

/-- C7 counterexample: in `dbContentExample` the teacher-role caller, whose
profile is teacher 1, receives a content row uploaded by teacher 2, so the
content listing is not restricted to rows the caller authored. -/
theorem c7_teacher_content_counterexample :
    teacherUserExample.role = Role.teacher ∧
    getTeacher dbContentExample teacherUserExample = some teacherRowExample ∧
    ¬ (∀ c ∈ ContentViewSet.get_queryset dbContentExample teacherUserExample,
        c.uploaded_by = teacherRowExample.id) := by
  decide

/-- C7 amended: a teacher-role caller listing content receives the whole
content table — `ContentViewSet.get_queryset` scopes only the student role,
and the teacher role falls through to the unrestricted default. -/
theorem c7_teacher_content_unrestricted (db : Db) (user : User)
    (hrole : user.role = Role.teacher) :
    ContentViewSet.get_queryset db user = db.contents := by
  simp [ContentViewSet.get_queryset, hrole]

/-- Witness for the amended C7 on `dbContentExample`. -/
theorem c7_teacher_content_unrestricted_witness :
    ContentViewSet.get_queryset dbContentExample teacherUserExample =
      dbContentExample.contents :=
  c7_teacher_content_unrestricted dbContentExample teacherUserExample rfl

/-- C8: with six active announcements created in order, the admin dashboard
field `recent_announcements` holds the five oldest rows in insertion order —
the unordered queryset is sliced before any sort — so the most recent
announcement is absent and the field is not the five most recent by recency. -/
theorem c8_recent_announcements_unordered :
    (admin_dashboard dbAnnouncementExample).recent_announcements =
      [announcementExample 1, announcementExample 2, announcementExample 3,
       announcementExample 4, announcementExample 5] ∧
    (∀ j ∈ [1, 2, 3, 4, 5],
      (announcementExample j).created_date < (announcementExample 6).created_date) ∧
    announcementExample 6 ∉ (admin_dashboard dbAnnouncementExample).recent_announcements := by
  decide

/-- C9: each role dashboard returns exactly a 404 response with its
descriptive message when the caller's profile row is missing. -/
theorem c9_dashboard_missing_profile_404 (db : Db) (ut us up : User) (now : Nat)
    (_htRole : ut.role = Role.teacher) (htProf : getTeacher db ut = none)
    (_hsRole : us.role = Role.student) (hsProf : getStudent db us = none)
    (_hpRole : up.role = Role.parent) (hpProf : getParent db up = none) :
    teacher_dashboard db ut now = ApiResponse.error 404 "Teacher profile not found" ∧
    student_dashboard db us now = ApiResponse.error 404 "Student profile not found" ∧
    parent_dashboard db up = ApiResponse.error 404 "Parent profile not found" := by
  refine ⟨?_, ?_, ?_⟩ <;>
    simp [teacher_dashboard, student_dashboard, parent_dashboard, htProf, hsProf, hpProf]

/-- Witness for C9 on `dbNoProfiles`. -/
theorem c9_dashboard_missing_profile_404_witness :
    teacher_dashboard dbNoProfiles noProfileTeacherUser 0 =
      ApiResponse.error 404 "Teacher profile not found" ∧
    student_dashboard dbNoProfiles noProfileStudentUser 0 =
      ApiResponse.error 404 "Student profile not found" ∧
    parent_dashboard dbNoProfiles noProfileParentUser =
      ApiResponse.error 404 "Parent profile not found" :=
  c9_dashboard_missing_profile_404 dbNoProfiles noProfileTeacherUser noProfileStudentUser
    noProfileParentUser 0 rfl (by decide) rfl (by decide) rfl (by decide)

/-- C10: a create request by a caller whose role does not match the resource's
ownership rule — a non-teacher creating content or attendance, a non-student
creating a submission — stores nothing, because `perform_create` saves only in
the matching-role branch, while the endpoint still replies 201 Created. -/
theorem c10_mismatched_role_create_noop (db : Db) (u1 u2 : User)
    (c : Content) (a : Attendance) (s : Submission)
    (h1 : u1.role ≠ Role.teacher) (h2 : u2.role ≠ Role.student) :
    ContentViewSet.createAction db u1 c = (201, db) ∧
    AttendanceViewSet.createAction db u1 a = (201, db) ∧
    SubmissionViewSet.createAction db u2 s = (201, db) := by
  have hc : ContentViewSet.perform_create db u1 c = db := by
    cases hu : u1.role
    case teacher => exact absurd hu h1
    all_goals simp [ContentViewSet.perform_create, hu]
  have hatt : AttendanceViewSet.perform_create db u1 a = db := by
    cases hu : u1.role
    case teacher => exact absurd hu h1
    all_goals simp [AttendanceViewSet.perform_create, hu]
  have hsub : SubmissionViewSet.perform_create db u2 s = db := by
    cases hu : u2.role
    case student => exact absurd hu h2
    all_goals simp [SubmissionViewSet.perform_create, hu]
  exact ⟨by simp [ContentViewSet.createAction, hc],
    by simp [AttendanceViewSet.createAction, hatt],
    by simp [SubmissionViewSet.createAction, hsub]⟩

/-- Witness for C10: an admin-role caller creating content, attendance and a
submission leaves `dbContentExample` unchanged while receiving 201. -/
theorem c10_mismatched_role_create_noop_witness :
    ContentViewSet.createAction dbContentExample adminUserExample contentPayloadExample =
      (201, dbContentExample) ∧
    AttendanceViewSet.createAction dbContentExample adminUserExample attendancePayloadExample =
      (201, dbContentExample) ∧
    SubmissionViewSet.createAction dbContentExample adminUserExample submissionPayloadExample =
      (201, dbContentExample) :=
  c10_mismatched_role_create_noop dbContentExample adminUserExample adminUserExample
    contentPayloadExample attendancePayloadExample submissionPayloadExample
    (by decide) (by decide)

end Lms
